import Mathlib

/-!
Verification of the adaptive-cover coordinator and forecast sensor.

This file gives a shallow embedding of the two source files
custom_components/adaptive_cover/coordinator.py and
custom_components/adaptive_cover/sensor.py, and proves the frozen claims
about them.

Modelling conventions:
  - instants (datetimes) and durations (timedeltas) are integers counting
    seconds; wall-clock UTC now is a field of the environment,
  - position and percentage values are rationals (Python ints and floats),
  - Python dictionaries keyed by entity id are association lists with
    unique keys, updated in place,
  - attribute reads that may yield None become Option values; operations
    that raise (TypeError on None arithmetic, KeyError or AttributeError
    on missing entries) return Except.error () and the unchanged state,
  - external collaborators (Home Assistant state machine, the solar
    calculator classes of calculation.py and the accessors of helpers.py,
    which are not part of the sources under verification) appear as
    abstract snapshot fields of the environment structures.
-/

/-- Association list keyed by strings, modelling a Python dict. -/
abbrev Dict (α : Type) := List (String × α)

namespace Dict

/-- Lookup, as dict.get: the value at the first matching key, if any. -/
def get {α : Type} : Dict α → String → Option α
  | [], _ => none
  | p :: t, k => if p.1 = k then some p.2 else get t k

/-- Assignment d[k] = v: replace the existing entry in place, else append. -/
def insert {α : Type} : Dict α → String → α → Dict α
  | [], k, v => [(k, v)]
  | p :: t, k, v => if p.1 = k then (k, v) :: t else p :: insert t k v

/-- Removal d.pop(k, None): drop the entry with the given key. -/
def pop {α : Type} : Dict α → String → Dict α
  | [], _ => []
  | p :: t, k => if p.1 = k then pop t k else p :: pop t k

theorem get_insert_self {α : Type} (d : Dict α) (k : String) (v : α) :
    (d.insert k v).get k = some v := by
  induction d with
  | nil => simp [Dict.insert, Dict.get]
  | cons p t ih =>
    by_cases h : p.1 = k
    · simp [Dict.insert, Dict.get, h]
    · simp [Dict.insert, Dict.get, h, ih]

theorem get_insert_ne {α : Type} (d : Dict α) {k k' : String} (v : α) (h : k ≠ k') :
    (d.insert k v).get k' = d.get k' := by
  induction d with
  | nil => simp [Dict.insert, Dict.get, h]
  | cons p t ih =>
    by_cases hp : p.1 = k
    · simp [Dict.insert, Dict.get, hp, h]
    · by_cases hp' : p.1 = k'
      · simp [Dict.insert, Dict.get, hp, hp', Ne.symm h]
      · simp [Dict.insert, Dict.get, hp, hp', ih]

theorem get_pop_self {α : Type} (d : Dict α) (k : String) :
    (d.pop k).get k = none := by
  induction d with
  | nil => simp [Dict.pop, Dict.get]
  | cons p t ih =>
    by_cases h : p.1 = k
    · simp [Dict.pop, h, ih]
    · simp [Dict.pop, Dict.get, h, ih]

theorem get_pop_ne {α : Type} (d : Dict α) {k k' : String} (h : k ≠ k') :
    (d.pop k).get k' = d.get k' := by
  induction d with
  | nil => simp [Dict.pop]
  | cons p t ih =>
    by_cases hp : p.1 = k
    · have hp' : p.1 ≠ k' := by rw [hp]; exact h
      simp [Dict.pop, Dict.get, hp, hp', ih, h]
    · by_cases hp' : p.1 = k'
      · simp [Dict.pop, Dict.get, hp, hp', Ne.symm h]
      · simp [Dict.pop, Dict.get, hp, hp', ih]

theorem get_eq_some_mem {α : Type} (d : Dict α) (k : String) (v : α)
    (h : d.get k = some v) : (k, v) ∈ d := by
  induction d with
  | nil => simp [Dict.get] at h
  | cons p t ih =>
    cases p with
    | mk a b =>
      by_cases hp : a = k
      · simp [Dict.get, hp] at h
        subst hp; subst h
        exact List.mem_cons_self _ _
      · simp [Dict.get, hp] at h
        exact List.mem_cons_of_mem _ (ih h)

end Dict

/-- Snapshot of a Home Assistant cover State object: the attributes read by
the coordinator and the state's own last_updated timestamp. -/
structure CoverState where
  current_position : Option ℚ
  current_tilt_position : Option ℚ
  last_updated : ℤ
deriving DecidableEq

/-- StateChangedData from coordinator.py: a cover state-change event. -/
structure StateChangedData where
  entity_id : String
  old_state : Option CoverState
  new_state : Option CoverState
deriving DecidableEq

/-- One entry of the coordinator's target_call dict: the inner dict with
optional tilt and normal keys. -/
structure TargetEntry where
  tilt : Option ℚ := none
  normal : Option ℚ := none
deriving DecidableEq

/-- Python's builtin round on a rational: nearest integer, ties to even. -/
def pythonRound (q : ℚ) : ℤ :=
  let f : ℤ := ⌊q⌋
  let r : ℚ := q - f
  if r < 1 / 2 then f
  else if 1 / 2 < r then f + 1
  else if 2 ∣ f then f else f + 1

/-- Python equality between a possibly missing numeric value and a bool,
as in the double-roller branch of process_entity_state_change: True
equals 1 and False equals 0, None equals neither. -/
def pyEqOptBool (x : Option ℚ) (b : Bool) : Bool :=
  match x with
  | none => false
  | some q => if b then decide (q = 1) else decide (q = 0)

deriving instance DecidableEq for Except

/-- AdaptiveCoverManager from coordinator.py: the manual-override tracker.
The reset duration is in seconds. -/
structure AdaptiveCoverManager where
  covers : List String
  manual_control : Dict Bool
  manual_control_time : Dict ℤ
  reset_duration : ℤ
deriving DecidableEq

namespace AdaptiveCoverManager

/-- Fresh manager as built by the constructor: empty cover set and empty
manual-control dicts. -/
def init (reset_duration : ℤ) : AdaptiveCoverManager :=
  { covers := [], manual_control := [], manual_control_time := [],
    reset_duration := reset_duration }

/-- add_covers: union the tracked entity set with the given entities. -/
def add_covers (m : AdaptiveCoverManager) (entity : List String) : AdaptiveCoverManager :=
  { m with covers := m.covers ++ entity.filter (fun e => ¬ m.covers.contains e) }

/-- mark_manual_control: set the manual flag of the cover to True. -/
def mark_manual_control (m : AdaptiveCoverManager) (cover : String) : AdaptiveCoverManager :=
  { m with manual_control := m.manual_control.insert cover true }

/-- is_cover_manual: the manual flag of the cover, defaulting to False. -/
def is_cover_manual (m : AdaptiveCoverManager) (entity_id : String) : Bool :=
  (m.manual_control.get entity_id).getD false

/-- set_last_updated: record the new state's own last_updated timestamp,
but only when no record exists yet or reset on every deviation is allowed. -/
def set_last_updated (m : AdaptiveCoverManager) (entity_id : String)
    (new_state : CoverState) (allow_reset : Bool) : AdaptiveCoverManager :=
  if (m.manual_control_time.get entity_id).isNone || allow_reset then
    { m with manual_control_time :=
        m.manual_control_time.insert entity_id new_state.last_updated }
  else m

/-- reset: clear the manual flag and drop the deviation timestamp. -/
def reset (m : AdaptiveCoverManager) (entity_id : String) : AdaptiveCoverManager :=
  { m with manual_control := m.manual_control.insert entity_id false,
           manual_control_time := m.manual_control_time.pop entity_id }

end AdaptiveCoverManager

/-- One step of the reset sweep: reset the entity when wall-clock now minus
its recorded timestamp strictly exceeds the reset duration. -/
def sweepStep (dur : ℤ) (now : ℤ) (acc : AdaptiveCoverManager) (p : String × ℤ) :
    AdaptiveCoverManager :=
  if dur < now - p.2 then acc.reset p.1 else acc

namespace AdaptiveCoverManager

/-- reset_if_needed: sweep a copy of the timestamp table taken at entry,
resetting every cover whose deviation has outlived the reset duration. -/
def reset_if_needed (m : AdaptiveCoverManager) (current_time : ℤ) : AdaptiveCoverManager :=
  m.manual_control_time.foldl (sweepStep m.reset_duration current_time) m

/-- handle_state_change: the Automatic-to-Manual transition check.
Error results model the KeyError on wait_target_call indexing and the
AttributeError on a missing new state. -/
def handle_state_change (m : AdaptiveCoverManager)
    (states_data : Option StateChangedData) (our_state : Option ℚ)
    (blind_type : String) (allow_reset : Bool) (wait_target_call : Dict Bool)
    (double_toggle : Bool) (slat_state : Option ℚ) :
    Except Unit AdaptiveCoverManager :=
  match states_data with
  | none => Except.ok m
  | some event =>
    let entity_id := event.entity_id
    if ¬ m.covers.contains entity_id then Except.ok m
    else
      match wait_target_call.get entity_id with
      | none => Except.error ()
      | some w =>
        if w then Except.ok m
        else
          match event.new_state with
          | none => Except.error ()
          | some ns =>
            let new_position : Option ℚ :=
              if blind_type = "cover_tilt" ∨ blind_type = "cover_double_roller"
              then ns.current_tilt_position else ns.current_position
            let second_position : Option ℚ := ns.current_position
            let state : Option ℚ :=
              if blind_type ≠ "cover_double_roller" then our_state else slat_state
            let second_state : Option ℚ :=
              if blind_type = "cover_double_roller" then our_state else some 101
            let m1 :=
              if new_position ≠ state then
                (m.mark_manual_control entity_id).set_last_updated entity_id ns allow_reset
              else m
            let m2 :=
              if double_toggle ∧ (new_position = state ∧ second_position ≠ second_state) then
                (m1.mark_manual_control entity_id).set_last_updated entity_id ns allow_reset
              else m1
            Except.ok m2

end AdaptiveCoverManager

/-- External environment read through the Home Assistant instance: per-entity
cover attributes, the last-updated accessor of helpers.py, wall-clock UTC now
in seconds and the local timezone offset. -/
structure Hass where
  attr_current_position : String → Option ℚ
  attr_current_tilt_position : String → Option ℚ
  last_updated : String → Option ℤ
  now : ℤ
  tz_offset : ℤ

/-- AdaptiveDataUpdateCoordinator from coordinator.py, as the snapshot of
configuration, toggles, per-cycle raw solver outputs and mutable tables that
one update cycle reads and writes.  The raw solver outputs stand for the
values returned by the NormalCoverState and ClimateCoverState calculators of
calculation.py, which are external to the verified sources. -/
structure Coordinator where
  cover_type : String
  climate_mode : Bool
  switch_mode : Bool
  inverse_state : Bool
  control_toggle : Bool
  double_toggle : Bool
  manual_reset : Bool
  cover_state_change : Bool
  entities : List String
  min_change : ℚ
  time_threshold : ℤ
  start_time : Option ℤ
  start_time_entity : Option ℤ
  manager : AdaptiveCoverManager
  wait_for_target : Dict Bool
  target_call : Dict TargetEntry
  state_change_data : Option StateChangedData
  default_state_raw : ℚ
  climate_state_raw : ℚ
  sun_percentage_raw : ℚ
  hass : Hass

namespace Coordinator

/-- default_state as assigned in the update cycle: the rounded output of the
geometric solver. -/
def default_state (c : Coordinator) : ℚ := (pythonRound c.default_state_raw : ℤ)

/-- climate_state as assigned in the update cycle: the rounded output of the
climate overlay when climate mode is configured, otherwise None. -/
def climate_state (c : Coordinator) : Option ℚ :=
  if c.climate_mode then some ((pythonRound c.climate_state_raw : ℤ) : ℚ) else none

/-- The state property: climate value when the climate switch is on, else the
geometric default; inverted as 100 minus the value when configured.  The
error case models the TypeError of inverting a missing climate value. -/
def state (c : Coordinator) : Except Unit (Option ℚ) :=
  let st : Option ℚ := if c.switch_mode then c.climate_state else some c.default_state
  if c.inverse_state then
    match st with
    | none => Except.error ()
    | some x => Except.ok (some (100 - x))
  else Except.ok st

/-- The slat_state property: None unless the cover is a double roller, else
the sun percentage of the solver, inverted as 100 minus the value when
configured. -/
def slat_state (c : Coordinator) : Except Unit (Option ℚ) :=
  if c.cover_type ≠ "cover_double_roller" then Except.ok none
  else
    let sun_percentage := c.sun_percentage_raw
    if c.inverse_state then Except.ok (some (100 - sun_percentage))
    else Except.ok (some sun_percentage)

/-- Floor day index of an instant, for the date comparison in
after_start_time. -/
def dayOf (t : ℤ) : ℤ := Int.fdiv t 86400

/-- Seconds since local midnight of an instant. -/
def secondOfDay (t : ℤ) : ℤ := t % 86400

/-- The after_start_time property.  The start entity's datetime and the
configured start time of day are modelled as already parsed values, standing
for the helpers get_datetime_from_state, get_safe_state and get_time. -/
def after_start_time (c : Coordinator) : Bool :=
  let viaStartTime : Bool :=
    match c.start_time with
    | some st => decide (st ≤ secondOfDay (c.hass.now + c.hass.tz_offset))
    | none => true
  match c.start_time_entity with
  | some t => if dayOf c.hass.now = dayOf t then decide (t ≤ c.hass.now) else viaStartTime
  | none => viaStartTime

/-- check_position: compare the reported position (the tilt position for tilt
and double-roller covers) against the target, with the secondary channel
delta admitted for a double roller with the toggle on.  A missing consulted
attribute falls through to None; arithmetic on other missing values models
the TypeError it would raise. -/
def check_position (c : Coordinator) (entity : String) : Except Unit (Option Bool) :=
  let current_position : Option ℚ :=
    if c.cover_type = "cover_tilt" ∨ c.cover_type = "cover_double_roller"
    then c.hass.attr_current_tilt_position entity
    else c.hass.attr_current_position entity
  match current_position with
  | none => Except.ok none
  | some cp =>
    match c.state with
    | Except.error err => Except.error err
    | Except.ok none => Except.error ()
    | Except.ok (some target) =>
      let condition : Bool := decide (c.min_change ≤ |cp - target|)
      if c.cover_type = "cover_double_roller" ∧ c.double_toggle then
        match c.hass.attr_current_position entity with
        | none => Except.error ()
        | some sp =>
          match c.slat_state with
          | Except.error err => Except.error err
          | Except.ok none => Except.error ()
          | Except.ok (some sl) =>
            Except.ok (some (condition || decide (c.min_change ≤ |sp - sl|)))
      else Except.ok (some condition)

/-- check_time_delta: at least the configured number of minutes has elapsed
since the entity was last updated, vacuously true without a record. -/
def check_time_delta (c : Coordinator) (entity : String) : Bool :=
  match c.hass.last_updated entity with
  | some lu => decide (60 * c.time_threshold ≤ c.hass.now - lu)
  | none => true

/-- The dispatch gate of async_handle_call_service: position delta and time
delta and start condition, with a falsy None position check failing the
gate. -/
def async_handle_call_service_gate (c : Coordinator) (entity : String) : Except Unit Bool :=
  match c.check_position entity with
  | Except.error err => Except.error err
  | Except.ok pos =>
    Except.ok ((pos.getD false) && c.check_time_delta entity && c.after_start_time)

end Coordinator

/-- Observable steps of async_set_position, in program order: dict writes and
awaited service calls. -/
inductive DispatchAction
  | reset_target (entity : String)
  | set_wait (entity : String)
  | set_target_tilt (entity : String) (v : Option ℚ)
  | set_target_normal (entity : String) (v : Option ℚ)
  | service_call_tilt (entity : String) (v : Option ℚ)
  | service_call_position (entity : String) (v : Option ℚ)
deriving DecidableEq

namespace DispatchAction

/-- Whether the action is an awaited service call. -/
def is_call : DispatchAction → Bool
  | service_call_tilt _ _ => true
  | service_call_position _ _ => true
  | _ => false

/-- Whether the action records a target channel value. -/
def is_set_target : DispatchAction → Bool
  | set_target_tilt _ _ => true
  | set_target_normal _ _ => true
  | _ => false

/-- Whether the action sets the awaiting flag. -/
def is_set_wait : DispatchAction → Bool
  | set_wait _ => true
  | _ => false

end DispatchAction

/-- The awaiting flag is set before the first awaited service call of the
trace (vacuously true for a trace with no call before it). -/
def waitBeforeFirstCall : List DispatchAction → Bool
  | [] => true
  | a :: tr =>
    if a.is_set_wait then true
    else if a.is_call then false
    else waitBeforeFirstCall tr

/-- Every awaiting-flag write and every target write of the trace happens
before the first awaited service call. -/
def preparedBeforeFirstCall : List DispatchAction → Bool
  | [] => true
  | a :: tr =>
    if a.is_call then ¬ tr.any (fun b => b.is_set_wait || b.is_set_target)
    else preparedBeforeFirstCall tr

namespace Coordinator

/-- Write False into the wait_for_target dict for the entity, as the
assignments in process_entity_state_change. -/
def clear_wait (c : Coordinator) (entity : String) : Coordinator :=
  { c with wait_for_target := c.wait_for_target.insert entity false }

/-- async_set_position: per cover type, reset the target record, set the
awaiting flag, record the channel targets and issue the service calls, in
source order.  Returns the updated coordinator and the ordered trace of
observable steps. -/
def async_set_position (c : Coordinator) (entity : String) :
    Except Unit (Coordinator × List DispatchAction) :=
  let c0 : Coordinator := { c with target_call := c.target_call.insert entity {} }
  if c.cover_type = "cover_double_roller" then
    let c1 : Coordinator :=
      { c0 with wait_for_target := c0.wait_for_target.insert entity true }
    match c.slat_state with
    | Except.error err => Except.error err
    | Except.ok sl =>
      let c2 : Coordinator :=
        { c1 with target_call := c1.target_call.insert entity { tilt := sl } }
      let tr1 : List DispatchAction :=
        [DispatchAction.reset_target entity, DispatchAction.set_wait entity,
         DispatchAction.set_target_tilt entity sl, DispatchAction.service_call_tilt entity sl]
      if c.double_toggle then
        match c.state with
        | Except.error err => Except.error err
        | Except.ok st =>
          let c3 : Coordinator :=
            { c2 with target_call := c2.target_call.insert entity { tilt := sl, normal := st } }
          Except.ok (c3, tr1 ++
            [DispatchAction.set_target_normal entity st,
             DispatchAction.service_call_position entity st])
      else Except.ok (c2, tr1)
  else if c.cover_type = "cover_tilt" then
    let c1 : Coordinator :=
      { c0 with wait_for_target := c0.wait_for_target.insert entity true }
    match c.state with
    | Except.error err => Except.error err
    | Except.ok st =>
      let c2 : Coordinator :=
        { c1 with target_call := c1.target_call.insert entity { tilt := st } }
      Except.ok (c2,
        [DispatchAction.reset_target entity, DispatchAction.set_wait entity,
         DispatchAction.set_target_tilt entity st, DispatchAction.service_call_tilt entity st])
  else
    let c1 : Coordinator :=
      { c0 with wait_for_target := c0.wait_for_target.insert entity true }
    match c.state with
    | Except.error err => Except.error err
    | Except.ok st =>
      let c2 : Coordinator :=
        { c1 with target_call := c1.target_call.insert entity { normal := st } }
      Except.ok (c2,
        [DispatchAction.reset_target entity, DispatchAction.set_wait entity,
         DispatchAction.set_target_normal entity st, DispatchAction.service_call_position entity st])

/-- process_entity_state_change: clear the awaiting flag when the reported
channels match the recorded targets, per cover type.  Error results model
the AttributeError on a missing event or new state and the KeyError or
AttributeError on a missing target_call entry. -/
def process_entity_state_change (c : Coordinator) : Except Unit Coordinator :=
  match c.state_change_data with
  | none => Except.error ()
  | some event =>
    let entity_id := event.entity_id
    if (c.wait_for_target.get entity_id).getD false = false then Except.ok c
    else
      match event.new_state with
      | none => Except.error ()
      | some ns =>
        let current_position : Option ℚ := ns.current_position
        let current_tilt_position : Option ℚ := ns.current_tilt_position
        let step1 : Except Unit Coordinator :=
          if c.cover_type = "cover_double_roller" then
            match c.target_call.get entity_id with
            | none => Except.error ()
            | some tc =>
              let cond_1 : Bool := decide (current_tilt_position = tc.tilt)
              let ca : Coordinator :=
                if c.double_toggle then
                  let cond_2 : Bool := decide (current_position = tc.normal)
                  if pyEqOptBool current_tilt_position cond_1 &&
                     pyEqOptBool current_position cond_2
                  then c.clear_wait entity_id else c
                else c
              Except.ok (if cond_1 then ca.clear_wait entity_id else ca)
          else Except.ok c
        match step1 with
        | Except.error err => Except.error err
        | Except.ok c1 =>
          if c.cover_type = "cover_tilt" then
            match c.target_call.get entity_id with
            | none => Except.error ()
            | some tc =>
              Except.ok (if current_tilt_position = tc.tilt
                then c1.clear_wait entity_id else c1)
          else
            match c.target_call.get entity_id with
            | none => Except.error ()
            | some tc =>
              Except.ok (if current_position = tc.normal
                then c1.clear_wait entity_id else c1)

/-- The dispatch loop of the update cycle: for each configured entity in
order, skip it when flagged manual, otherwise evaluate the gate of
async_handle_call_service and collect the entities that are commanded. -/
def dispatch_list (c : Coordinator) (m : AdaptiveCoverManager) :
    List String → Except Unit (List String)
  | [] => Except.ok []
  | cover :: rest =>
    if m.is_cover_manual cover then c.dispatch_list m rest
    else
      match c.async_handle_call_service_gate cover with
      | Except.error err => Except.error err
      | Except.ok g =>
        match c.dispatch_list m rest with
        | Except.error err => Except.error err
        | Except.ok tail => Except.ok (if g then cover :: tail else tail)

/-- One run of the body of the update cycle that concerns the manual-override
tracker and dispatch: register the entities, run the deviation check when the
cycle was triggered by a cover state change, run the reset sweep, then
dispatch to the non-manual entities that pass the gate.  Returns the manager
state at dispatch time and the list of commanded entities. -/
def run_cycle (c : Coordinator) : Except Unit (AdaptiveCoverManager × List String) :=
  let m0 := c.manager.add_covers c.entities
  let step1 : Except Unit AdaptiveCoverManager :=
    if c.cover_state_change then
      match c.state with
      | Except.error err => Except.error err
      | Except.ok st =>
        match c.slat_state with
        | Except.error err => Except.error err
        | Except.ok sl =>
          m0.handle_state_change c.state_change_data st c.cover_type c.manual_reset
            c.wait_for_target c.double_toggle sl
    else Except.ok m0
  match step1 with
  | Except.error err => Except.error err
  | Except.ok m1 =>
    let m2 := m1.reset_if_needed c.hass.now
    match (if c.control_toggle then c.dispatch_list m2 c.entities else Except.ok []) with
    | Except.error err => Except.error err
    | Except.ok cmds => Except.ok (m2, cmds)

/-- async_config_entry_first_refresh: run the first update cycle, then
command every configured entity unconditionally when control is toggled on.
Returns the manager at dispatch time and all entities commanded during the
refresh. -/
def async_config_entry_first_refresh (c : Coordinator) :
    Except Unit (AdaptiveCoverManager × List String) :=
  match c.run_cycle with
  | Except.error err => Except.error err
  | Except.ok (m', cmds) =>
    Except.ok (m', cmds ++ (if c.control_toggle then c.entities else []))

end Coordinator

/-- One entry of the generated forecast: isoformat timestamp, position,
elevation and azimuth, with the timestamp kept as the instant itself. -/
structure ForecastEntry where
  time : ℤ
  position : ℚ
  elevation : ℚ
  azimuth : ℚ
deriving DecidableEq

/-- Environment of one forecast generation: whether the cover calculator
could be built, the solar functions of the sun-data provider, the solver
output with the sun moved to an instant, the day's sunset and sunrise with
their configured minute offsets, the configured sunset position, and the
current local time.  These stand for the calculation.py classes and the
astral provider, external to the verified sources. -/
structure ForecastEnv where
  calculator_ok : Bool
  solar_azimuth : ℤ → ℚ
  solar_elevation : ℤ → ℚ
  state_at : ℤ → ℚ
  sunset : ℤ
  sunrise : ℤ
  sunset_off : ℤ
  sunrise_off : ℤ
  sunset_position : ℚ
  now_local : ℤ

/-- The pandas date range of the forecast: from the current local time to 24
hours later at a 30 minute frequency, both endpoints included. -/
def forecastTimes (now_local : ℤ) : List ℤ :=
  (List.range 49).map (fun i : ℕ => now_local + 1800 * (i : ℤ))

/-- The night-time test of the forecast loop: at or past sunset plus offset,
or at or before sunrise plus offset. -/
def nightTime (env : ForecastEnv) (t : ℤ) : Bool :=
  decide (env.sunset + 60 * env.sunset_off ≤ t) || decide (t ≤ env.sunrise + 60 * env.sunrise_off)

/-- One forecast entry at an instant: the configured sunset position during
night time, else the solver state, with the solar angles of the instant. -/
def forecastEntryAt (env : ForecastEnv) (t : ℤ) : ForecastEntry :=
  { time := t,
    position := if nightTime env t then env.sunset_position else env.state_at t,
    elevation := env.solar_elevation t,
    azimuth := env.solar_azimuth t }

/-- Cache state of AdaptiveCoverForecastSensor: the stored forecast list and
the UTC instant of the last successful generation. -/
structure AdaptiveCoverForecastSensor where
  forecast_data : Option (List ForecastEntry)
  last_forecast : Option ℤ
deriving DecidableEq

namespace AdaptiveCoverForecastSensor

/-- generate_forecast: return the cached list unchanged when the last
successful generation is non-empty and less than five minutes old,
otherwise recompute the 24 hour sequence and cache it; a missing cover
calculator yields an empty list without caching. -/
def generate_forecast (s : AdaptiveCoverForecastSensor) (now : ℤ) (env : ForecastEnv) :
    List ForecastEntry × AdaptiveCoverForecastSensor :=
  let cached : Option (List ForecastEntry) :=
    match s.last_forecast, s.forecast_data with
    | some lf, some fd => if fd ≠ [] ∧ now - lf < 300 then some fd else none
    | _, _ => none
  match cached with
  | some fd => (fd, s)
  | none =>
    if ¬ env.calculator_ok then ([], s)
    else
      let fc := (forecastTimes env.now_local).map (forecastEntryAt env)
      (fc, { forecast_data := some fc, last_forecast := some now })

end AdaptiveCoverForecastSensor

namespace AdaptiveCoverManager

theorem reset_is_cover_manual_self (m : AdaptiveCoverManager) (e : String) :
    (m.reset e).is_cover_manual e = false := by
  simp [reset, is_cover_manual, Dict.get_insert_self]

theorem reset_is_cover_manual_ne (m : AdaptiveCoverManager) {k e : String} (h : k ≠ e) :
    (m.reset k).is_cover_manual e = m.is_cover_manual e := by
  simp [reset, is_cover_manual, Dict.get_insert_ne _ _ h]

theorem reset_time_self (m : AdaptiveCoverManager) (e : String) :
    (m.reset e).manual_control_time.get e = none := by
  simp [reset, Dict.get_pop_self]

theorem reset_time_ne (m : AdaptiveCoverManager) {k e : String} (h : k ≠ e) :
    (m.reset k).manual_control_time.get e = m.manual_control_time.get e := by
  simp [reset, Dict.get_pop_ne _ h]

end AdaptiveCoverManager

theorem sweep_fold_manual_true {d now : ℤ} :
    ∀ (l : List (String × ℤ)) (acc : AdaptiveCoverManager) (e : String),
      (l.foldl (sweepStep d now) acc).is_cover_manual e = true →
      acc.is_cover_manual e = true := by
  intro l
  induction l with
  | nil => intro acc e h; simpa using h
  | cons p t ih =>
    intro acc e h
    have h' := ih (sweepStep d now acc p) e h
    by_cases hc : d < now - p.2
    · by_cases hk : p.1 = e
      · rw [sweepStep, if_pos hc, hk] at h'
        rw [AdaptiveCoverManager.reset_is_cover_manual_self] at h'
        exact absurd h' (by simp)
      · rwa [sweepStep, if_pos hc, AdaptiveCoverManager.reset_is_cover_manual_ne _ hk] at h'
    · rwa [sweepStep, if_neg hc] at h'

theorem sweep_fold_avoid {d now : ℤ} :
    ∀ (l : List (String × ℤ)) (acc : AdaptiveCoverManager) (e : String),
      e ∉ l.map Prod.fst →
      (l.foldl (sweepStep d now) acc).is_cover_manual e = acc.is_cover_manual e ∧
      (l.foldl (sweepStep d now) acc).manual_control_time.get e =
        acc.manual_control_time.get e := by
  intro l
  induction l with
  | nil => intro acc e _; exact ⟨rfl, rfl⟩
  | cons p t ih =>
    intro acc e he
    have hk : p.1 ≠ e := by
      intro hk; exact he (by simp [hk.symm])
    have ht : e ∉ t.map Prod.fst := fun hm => he (by simp [hm])
    have step := ih (sweepStep d now acc p) e ht
    by_cases hc : d < now - p.2
    · rw [List.foldl_cons] at *
      refine ⟨?_, ?_⟩
      · rw [step.1, sweepStep, if_pos hc, AdaptiveCoverManager.reset_is_cover_manual_ne _ hk]
      · rw [step.2, sweepStep, if_pos hc, AdaptiveCoverManager.reset_time_ne _ hk]
    · rw [List.foldl_cons]
      rw [sweepStep, if_neg hc] at step ⊢
      exact step

theorem sweep_fold_clears {d now : ℤ} :
    ∀ (l : List (String × ℤ)) (acc : AdaptiveCoverManager) (e : String) (since : ℤ),
      (l.map Prod.fst).Nodup → (e, since) ∈ l → d < now - since →
      (l.foldl (sweepStep d now) acc).is_cover_manual e = false ∧
      (l.foldl (sweepStep d now) acc).manual_control_time.get e = none := by
  intro l
  induction l with
  | nil => intro acc e since _ hmem; simp at hmem
  | cons p t ih =>
    intro acc e since hnd hmem helap
    rw [List.map_cons, List.nodup_cons] at hnd
    rcases List.mem_cons.mp hmem with hhead | htail
    · subst hhead
      have hkeys : e ∉ t.map Prod.fst := by simpa using hnd.1
      have step := @sweep_fold_avoid d now t (sweepStep d now acc (e, since)) e hkeys
      rw [List.foldl_cons]
      refine ⟨?_, ?_⟩
      · rw [step.1, sweepStep, if_pos helap, AdaptiveCoverManager.reset_is_cover_manual_self]
      · rw [step.2, sweepStep, if_pos helap, AdaptiveCoverManager.reset_time_self]
    · rw [List.foldl_cons]
      exact ih (sweepStep d now acc p) e since hnd.2 htail helap

theorem sweep_fold_keeps {d now : ℤ} :
    ∀ (l : List (String × ℤ)) (acc : AdaptiveCoverManager) (e : String) (since : ℤ),
      (l.map Prod.fst).Nodup → (e, since) ∈ l → ¬ d < now - since →
      (l.foldl (sweepStep d now) acc).is_cover_manual e = acc.is_cover_manual e ∧
      (l.foldl (sweepStep d now) acc).manual_control_time.get e =
        acc.manual_control_time.get e := by
  intro l
  induction l with
  | nil => intro acc e since _ hmem; simp at hmem
  | cons p t ih =>
    intro acc e since hnd hmem hkeep
    rw [List.map_cons, List.nodup_cons] at hnd
    rcases List.mem_cons.mp hmem with hhead | htail
    · subst hhead
      have hkeys : e ∉ t.map Prod.fst := by simpa using hnd.1
      have step := @sweep_fold_avoid d now t acc e hkeys
      rw [List.foldl_cons, sweepStep, if_neg hkeep]
      exact step
    · have hk : p.1 ≠ e := by
        intro hk
        have : e ∈ t.map Prod.fst := by
          exact List.mem_map.mpr ⟨(e, since), htail, rfl⟩
        rw [hk] at hnd
        exact hnd.1 this
      rw [List.foldl_cons]
      have step := ih (sweepStep d now acc p) e since hnd.2 htail hkeep
      by_cases hc : d < now - p.2
      · rw [step.1, step.2, sweepStep, if_pos hc,
          AdaptiveCoverManager.reset_is_cover_manual_ne _ hk,
          AdaptiveCoverManager.reset_time_ne _ hk]
        exact ⟨rfl, rfl⟩
      · rw [step.1, step.2, sweepStep, if_neg hc]
        exact ⟨rfl, rfl⟩

theorem Coordinator.mem_dispatch_iff (c : Coordinator) (m : AdaptiveCoverManager) :
    ∀ (l out : List String), c.dispatch_list m l = Except.ok out →
      ∀ e, (e ∈ out ↔ e ∈ l ∧ m.is_cover_manual e = false ∧
            c.async_handle_call_service_gate e = Except.ok true) := by
  intro l
  induction l with
  | nil =>
    intro out h e
    rw [Coordinator.dispatch_list] at h
    injection h with h
    subst h
    simp
  | cons cover rest ih =>
    intro out h e
    rw [Coordinator.dispatch_list] at h
    by_cases hman : m.is_cover_manual cover = true
    · rw [if_pos hman] at h
      have hr := ih out h e
      rw [hr]
      constructor
      · rintro ⟨h1, h2, h3⟩
        exact ⟨List.mem_cons_of_mem _ h1, h2, h3⟩
      · rintro ⟨h1, h2, h3⟩
        rcases List.mem_cons.mp h1 with he | he
        · subst he; rw [hman] at h2; exact absurd h2 (by simp)
        · exact ⟨he, h2, h3⟩
    · rw [if_neg hman] at h
      cases hg : c.async_handle_call_service_gate cover with
      | error err => rw [hg] at h; exact absurd h (by simp)
      | ok g =>
        rw [hg] at h
        cases hrest : c.dispatch_list m rest with
        | error err => rw [hrest] at h; exact absurd h (by simp)
        | ok tail =>
          rw [hrest] at h
          injection h with h
          subst h
          have hr := ih tail hrest e
          by_cases hge : g = true
          · rw [if_pos hge]
            constructor
            · intro hmem
              rcases List.mem_cons.mp hmem with he | he
              · subst he
                subst hge
                exact ⟨List.mem_cons_self _ _, by simpa using hman, hg⟩
              · have := hr.mp he
                exact ⟨List.mem_cons_of_mem _ this.1, this.2.1, this.2.2⟩
            · rintro ⟨h1, h2, h3⟩
              rcases List.mem_cons.mp h1 with he | he
              · subst he; exact List.mem_cons_self _ _
              · exact List.mem_cons_of_mem _ (hr.mpr ⟨he, h2, h3⟩)
          · rw [if_neg hge]
            rw [hr]
            constructor
            · rintro ⟨h1, h2, h3⟩
              exact ⟨List.mem_cons_of_mem _ h1, h2, h3⟩
            · rintro ⟨h1, h2, h3⟩
              rcases List.mem_cons.mp h1 with he | he
              · subst he
                rw [hg] at h3
                injection h3 with h3
                exact absurd h3 hge
              · exact ⟨he, h2, h3⟩

theorem Coordinator.run_cycle_dispatch {c : Coordinator} {m' : AdaptiveCoverManager}
    {cmds : List String} (h : c.run_cycle = Except.ok (m', cmds))
    (hct : c.control_toggle = true) :
    c.dispatch_list m' c.entities = Except.ok cmds := by
  simp only [Coordinator.run_cycle] at h
  split at h
  · exact absurd h (by simp)
  · rename_i m1 heq1
    rw [if_pos hct] at h
    split at h
    · exact absurd h (by simp)
    · rename_i cmds' heq2
      injection h with h
      have h1 : m1.reset_if_needed c.hass.now = m' := congrArg Prod.fst h
      have h2 : cmds' = cmds := congrArg Prod.snd h
      rw [← h1, ← h2]
      exact heq2

theorem Coordinator.run_cycle_no_control {c : Coordinator} {m' : AdaptiveCoverManager}
    {cmds : List String} (h : c.run_cycle = Except.ok (m', cmds))
    (hct : c.control_toggle = false) :
    cmds = [] := by
  simp only [Coordinator.run_cycle] at h
  split at h
  · exact absurd h (by simp)
  · rw [hct] at h
    simp only [Bool.false_eq_true, if_false] at h
    injection h with h
    exact (congrArg Prod.snd h).symm

theorem Coordinator.run_cycle_manager_no_event {c : Coordinator}
    {m' : AdaptiveCoverManager} {cmds : List String}
    (h : c.run_cycle = Except.ok (m', cmds)) (hcsc : c.cover_state_change = false) :
    m' = (c.manager.add_covers c.entities).reset_if_needed c.hass.now := by
  simp only [Coordinator.run_cycle, hcsc, Bool.false_eq_true, if_false] at h
  split at h
  · exact absurd h (by simp)
  · injection h with h
    exact (congrArg Prod.fst h).symm

theorem Coordinator.first_refresh_ok {c : Coordinator} {m' : AdaptiveCoverManager}
    {cmds : List String} (h : c.async_config_entry_first_refresh = Except.ok (m', cmds)) :
    ∃ cmds0, c.run_cycle = Except.ok (m', cmds0) ∧
      cmds = cmds0 ++ (if c.control_toggle then c.entities else []) := by
  simp only [Coordinator.async_config_entry_first_refresh] at h
  split at h
  · exact absurd h (by simp)
  · rename_i m0 cmds0 heq
    injection h with h
    have h1 : m0 = m' := congrArg Prod.fst h
    have h2 : cmds0 ++ (if c.control_toggle then c.entities else []) = cmds :=
      congrArg Prod.snd h
    exact ⟨cmds0, h1 ▸ heq, h2.symm⟩

/-- C1: in every update cycle, a tracked cover that the manual-override
tracker flags as manually controlled at dispatch time receives no automatic
command; and a first refresh entered outside a cover state-change trigger
with no manual flag set, although its final loop commands every configured
entity unconditionally, only ever commands entities not flagged manual. -/
theorem C1_manual_never_commanded (c : Coordinator) :
    (∀ m' cmds, c.run_cycle = Except.ok (m', cmds) →
      ∀ e, m'.is_cover_manual e = true → e ∉ cmds)
    ∧ (c.cover_state_change = false →
       (∀ e, c.manager.is_cover_manual e = false) →
       ∀ m' cmds, c.async_config_entry_first_refresh = Except.ok (m', cmds) →
         ∀ e, e ∈ cmds → m'.is_cover_manual e = false) := by
  constructor
  · intro m' cmds h e hman hmem
    by_cases hct : c.control_toggle = true
    · have hd := Coordinator.run_cycle_dispatch h hct
      have hiff := Coordinator.mem_dispatch_iff c m' c.entities cmds hd e
      have := (hiff.mp hmem).2.1
      rw [hman] at this
      exact absurd this (by simp)
    · have : cmds = [] :=
        Coordinator.run_cycle_no_control h (Bool.not_eq_true _ ▸ (by simpa using hct))
      subst this
      simp at hmem
  · intro hcsc hall m' cmds h e _
    rcases Coordinator.first_refresh_ok h with ⟨cmds0, hrun, _⟩
    have hm' := Coordinator.run_cycle_manager_no_event hrun hcsc
    cases hb : m'.is_cover_manual e with
    | false => rfl
    | true =>
      rw [hm', AdaptiveCoverManager.reset_if_needed] at hb
      have := sweep_fold_manual_true _ _ _ hb
      have hadd : (c.manager.add_covers c.entities).is_cover_manual e =
          c.manager.is_cover_manual e := rfl
      rw [hadd] at this
      rw [hall e] at this
      exact absurd this (by simp)

/-- Environment with no readable attributes and clock zero, for witnesses. -/
def emptyHass : Hass :=
  { attr_current_position := fun _ => none,
    attr_current_tilt_position := fun _ => none,
    last_updated := fun _ => none,
    now := 0, tz_offset := 0 }

/-- Concrete coordinator whose tracker flags the only entity manual. -/
def c1wit : Coordinator :=
  { cover_type := "cover_blind", climate_mode := false, switch_mode := false,
    inverse_state := false, control_toggle := true, double_toggle := false,
    manual_reset := false, cover_state_change := false,
    entities := ["cover.a"], min_change := 1, time_threshold := 2,
    start_time := none, start_time_entity := none,
    manager := { covers := [], manual_control := [("cover.a", true)],
                 manual_control_time := [], reset_duration := 900 },
    wait_for_target := [], target_call := [], state_change_data := none,
    default_state_raw := 40, climate_state_raw := 0, sun_percentage_raw := 0,
    hass := emptyHass }

/-- Manager state of the c1wit cycle at dispatch time. -/
def c1mgr : AdaptiveCoverManager :=
  { covers := ["cover.a"], manual_control := [("cover.a", true)],
    manual_control_time := [], reset_duration := 900 }

/-- Concrete coordinator with a clean tracker, for the first-refresh part. -/
def c1wit2 : Coordinator :=
  { c1wit with manager := { covers := [], manual_control := [],
                            manual_control_time := [], reset_duration := 900 } }

/-- Manager state of the c1wit2 first refresh at dispatch time. -/
def c1mgr2 : AdaptiveCoverManager :=
  { covers := ["cover.a"], manual_control := [], manual_control_time := [],
    reset_duration := 900 }

/-- Witness for C1: the manually flagged cover is not commanded in the
cycle, and the first refresh from a clean tracker commands no manual cover. -/
theorem C1_witness :
    c1wit.run_cycle = Except.ok (c1mgr, []) ∧
    c1mgr.is_cover_manual "cover.a" = true ∧
    "cover.a" ∉ ([] : List String) ∧
    c1wit2.async_config_entry_first_refresh = Except.ok (c1mgr2, ["cover.a"]) ∧
    c1mgr2.is_cover_manual "cover.a" = false := by
  refine ⟨rfl, rfl, ?_, rfl, ?_⟩
  · exact (C1_manual_never_commanded c1wit).1 c1mgr [] rfl "cover.a" rfl
  · exact (C1_manual_never_commanded c1wit2).2 rfl (fun e => rfl) c1mgr2
      ["cover.a"] rfl "cover.a" (by simp)

/-- Manager with one cover flagged manual since instant 0 and a reset
duration of 900 seconds (15 minutes). -/
def c2mgr : AdaptiveCoverManager :=
  { covers := ["cover.a"], manual_control := [("cover.a", true)],
    manual_control_time := [("cover.a", 0)], reset_duration := 900 }

/-- Counterexample to C2 as stated: with reset duration 15 minutes and a
deviation recorded at instant 0, the sweep run exactly at instant 900
(since plus 15 minutes, the moment the claim says the record is cleared)
leaves the cover Manual and keeps the record, because the code requires the
elapsed time to strictly exceed the duration. -/
theorem C2_counterexample :
    c2mgr.manual_control_time.get "cover.a" = some 0 ∧
    c2mgr.reset_duration = 900 ∧
    (c2mgr.reset_if_needed 900).is_cover_manual "cover.a" = true ∧
    (c2mgr.reset_if_needed 900).manual_control_time.get "cover.a" = some 0 := by
  refine ⟨rfl, rfl, rfl, rfl⟩

/-- C2 (amended): the per-cycle reset sweep clears the manual record of a
flagged cover exactly when wall-clock now strictly exceeds the recorded
deviation timestamp plus the reset duration; at since plus the duration
exactly (and so at since+14:59 and at since+15:00 sharp for a 15 minute
duration) the cover is still Manual, and the first sweep strictly later
transitions it to Automatic. -/
theorem C2_reset_sweep (m : AdaptiveCoverManager) (e : String) (since now : ℤ)
    (hnd : (m.manual_control_time.map Prod.fst).Nodup)
    (ht : m.manual_control_time.get e = some since)
    (hm : m.is_cover_manual e = true) :
    (m.reset_duration < now - since →
      (m.reset_if_needed now).is_cover_manual e = false ∧
      (m.reset_if_needed now).manual_control_time.get e = none)
    ∧ (now - since ≤ m.reset_duration →
      (m.reset_if_needed now).is_cover_manual e = true ∧
      (m.reset_if_needed now).manual_control_time.get e = some since) := by
  have hmem : (e, since) ∈ m.manual_control_time := Dict.get_eq_some_mem _ _ _ ht
  constructor
  · intro helap
    rw [AdaptiveCoverManager.reset_if_needed]
    exact sweep_fold_clears m.manual_control_time m e since hnd hmem helap
  · intro hkeep
    rw [AdaptiveCoverManager.reset_if_needed]
    have hkeep' : ¬ m.reset_duration < now - since := not_lt.mpr hkeep
    have := sweep_fold_keeps m.manual_control_time m e since hnd hmem hkeep'
    rw [this.1, this.2]
    exact ⟨hm, ht⟩

/-- Witness for C2: on the concrete manager, a sweep at instant 899 (14:59
after the deviation) and at instant 900 keeps the cover Manual, and a sweep
at instant 901 clears it. -/
theorem C2_witness :
    (c2mgr.reset_if_needed 899).is_cover_manual "cover.a" = true ∧
    (c2mgr.reset_if_needed 900).is_cover_manual "cover.a" = true ∧
    (c2mgr.reset_if_needed 901).is_cover_manual "cover.a" = false ∧
    (c2mgr.reset_if_needed 901).manual_control_time.get "cover.a" = none := by
  refine ⟨?_, ?_, ?_, ?_⟩
  · exact ((C2_reset_sweep c2mgr "cover.a" 0 899 (by decide) rfl rfl).2 (by decide)).1
  · exact ((C2_reset_sweep c2mgr "cover.a" 0 900 (by decide) rfl rfl).2 (by decide)).1
  · exact ((C2_reset_sweep c2mgr "cover.a" 0 901 (by decide) rfl rfl).1 (by decide)).1
  · exact ((C2_reset_sweep c2mgr "cover.a" 0 901 (by decide) rfl rfl).1 (by decide)).2

/-- C6: when a deviation records a timestamp, set_last_updated stores the
new state's own last_updated (the device's reported update time, not the
wall clock, which the function does not even receive); and when a record
already exists and reset on every new deviation is disabled, the existing
timestamp is left unchanged. -/
theorem C6_deviation_timestamp (m : AdaptiveCoverManager) (e : String) (ns : CoverState) :
    (m.manual_control_time.get e = none →
      ∀ allow_reset,
        (m.set_last_updated e ns allow_reset).manual_control_time.get e =
          some ns.last_updated)
    ∧ (∀ t, m.manual_control_time.get e = some t →
        (m.set_last_updated e ns false).manual_control_time.get e = some t) := by
  constructor
  · intro hnone allow_reset
    rw [AdaptiveCoverManager.set_last_updated, if_pos]
    · exact Dict.get_insert_self _ _ _
    · rw [hnone]; simp
  · intro t hsome
    rw [AdaptiveCoverManager.set_last_updated, if_neg]
    · exact hsome
    · rw [hsome]; simp

/-- Manager with one recorded deviation, for the C6 witness. -/
def c6mgr : AdaptiveCoverManager :=
  { covers := ["cover.a"], manual_control := [("cover.a", true)],
    manual_control_time := [("cover.a", 50)], reset_duration := 900 }

/-- Witness for C6: a fresh record stores the reported update time 77, and
with reset disabled an existing record keeps its original timestamp 50. -/
theorem C6_witness :
    ((AdaptiveCoverManager.init 900).set_last_updated "cover.a"
        { current_position := some 10, current_tilt_position := none,
          last_updated := 77 } false).manual_control_time.get "cover.a" = some 77 ∧
    (c6mgr.set_last_updated "cover.a"
        { current_position := some 10, current_tilt_position := none,
          last_updated := 77 } false).manual_control_time.get "cover.a" = some 50 := by
  constructor
  · exact (C6_deviation_timestamp (AdaptiveCoverManager.init 900) "cover.a" _).1 rfl false
  · exact (C6_deviation_timestamp c6mgr "cover.a" _).2 50 rfl

/-- Invariant of the manual-override tracker: every entity with a recorded
deviation timestamp is flagged manually controlled. -/
def ManagerInv (m : AdaptiveCoverManager) : Prop :=
  ∀ e, (m.manual_control_time.get e).isSome → m.manual_control.get e = some true

theorem inv_mark_set (m : AdaptiveCoverManager) (hm : ManagerInv m) (e : String)
    (ns : CoverState) (ar : Bool) :
    ManagerInv ((m.mark_manual_control e).set_last_updated e ns ar) := by
  intro e' he'
  rw [AdaptiveCoverManager.set_last_updated] at he' ⊢
  by_cases hcond : ((m.mark_manual_control e).manual_control_time.get e).isNone = true ∨ ar = true
  · rw [if_pos (by simpa using hcond)] at he' ⊢
    by_cases hee : e = e'
    · subst hee
      simp [AdaptiveCoverManager.mark_manual_control, Dict.get_insert_self]
    · simp only [AdaptiveCoverManager.mark_manual_control] at he' ⊢
      rw [Dict.get_insert_ne _ _ hee]
      rw [Dict.get_insert_ne _ _ hee] at he'
      exact hm e' he'
  · rw [if_neg (by simpa using hcond)] at he' ⊢
    by_cases hee : e = e'
    · subst hee
      simp [AdaptiveCoverManager.mark_manual_control, Dict.get_insert_self]
    · simp only [AdaptiveCoverManager.mark_manual_control] at he' ⊢
      rw [Dict.get_insert_ne _ _ hee]
      exact hm e' he'

theorem inv_reset (m : AdaptiveCoverManager) (hm : ManagerInv m) (e : String) :
    ManagerInv (m.reset e) := by
  intro e' he'
  by_cases hee : e = e'
  · subst hee
    rw [AdaptiveCoverManager.reset] at he'
    simp only at he'
    rw [Dict.get_pop_self] at he'
    exact absurd he' (by simp)
  · rw [AdaptiveCoverManager.reset] at he' ⊢
    simp only at he' ⊢
    rw [Dict.get_pop_ne _ hee] at he'
    rw [Dict.get_insert_ne _ _ hee]
    exact hm e' he'

theorem inv_sweep_fold (d now : ℤ) :
    ∀ (l : List (String × ℤ)) (acc : AdaptiveCoverManager), ManagerInv acc →
      ManagerInv (l.foldl (sweepStep d now) acc) := by
  intro l
  induction l with
  | nil => intro acc h; exact h
  | cons p t ih =>
    intro acc h
    rw [List.foldl_cons]
    apply ih
    rw [sweepStep]
    by_cases hc : d < now - p.2
    · rw [if_pos hc]; exact inv_reset acc h p.1
    · rw [if_neg hc]; exact h

theorem handle_state_change_cases (m : AdaptiveCoverManager) (sd : Option StateChangedData)
    (st : Option ℚ) (bt : String) (ar : Bool) (wtc : Dict Bool) (dt : Bool)
    (sl : Option ℚ) (m' : AdaptiveCoverManager)
    (h : m.handle_state_change sd st bt ar wtc dt sl = Except.ok m') :
    m' = m ∨
    (∃ e ns, m' = (m.mark_manual_control e).set_last_updated e ns ar) ∨
    (∃ e ns, m' =
      (((m.mark_manual_control e).set_last_updated e ns ar).mark_manual_control
        e).set_last_updated e ns ar) := by
  rw [AdaptiveCoverManager.handle_state_change.eq_def] at h
  simp only [ne_eq] at h
  repeat' split at h
  all_goals
    first
      | exact Except.noConfusion h
      | (injection h with h; subst h;
         first
           | exact Or.inl rfl
           | exact Or.inr (Or.inl ⟨_, _, rfl⟩)
           | exact Or.inr (Or.inr ⟨_, _, rfl⟩))

/-- C9: the tracker invariant (a recorded deviation timestamp implies the
manual flag is set) holds initially and is preserved by every operation:
registering covers, the deviation check of handle_state_change, an explicit
reset and the per-cycle reset sweep. -/
theorem C9_tracker_invariant (m : AdaptiveCoverManager) (hm : ManagerInv m) :
    (∀ d, ManagerInv (AdaptiveCoverManager.init d))
    ∧ (∀ es, ManagerInv (m.add_covers es))
    ∧ (∀ sd st bt ar wtc dt sl m',
        m.handle_state_change sd st bt ar wtc dt sl = Except.ok m' → ManagerInv m')
    ∧ (∀ e, ManagerInv (m.reset e))
    ∧ (∀ now, ManagerInv (m.reset_if_needed now)) := by
  refine ⟨?_, ?_, ?_, ?_, ?_⟩
  · intro d e he
    simp [AdaptiveCoverManager.init, Dict.get] at he
  · intro es e he
    exact hm e he
  · intro sd st bt ar wtc dt sl m' h
    rcases handle_state_change_cases m sd st bt ar wtc dt sl m' h with
      h1 | ⟨e, ns, h1⟩ | ⟨e, ns, h1⟩
    · exact h1 ▸ hm
    · exact h1 ▸ inv_mark_set m hm e ns ar
    · exact h1 ▸ inv_mark_set _ (inv_mark_set m hm e ns ar) e ns ar
  · intro e
    exact inv_reset m hm e
  · intro now
    rw [AdaptiveCoverManager.reset_if_needed]
    exact inv_sweep_fold _ _ _ m hm

/-- Witness for C9: the invariant holds for the fresh tracker and is carried
through a reset and a sweep on a concrete populated tracker. -/
theorem C9_witness :
    ManagerInv (AdaptiveCoverManager.init 900) ∧
    ManagerInv (c6mgr.reset "cover.a") ∧
    ManagerInv (c6mgr.reset_if_needed 2000) := by
  have hminv : ManagerInv c6mgr := by
    intro e he
    rw [c6mgr] at he ⊢
    simp only [Dict.get] at he ⊢
    by_cases hee : "cover.a" = e
    · simp [hee]
    · rw [if_neg hee] at he
      simp at he
  refine ⟨?_, ?_, ?_⟩
  · exact (C9_tracker_invariant c6mgr hminv).1 900
  · exact (C9_tracker_invariant c6mgr hminv).2.2.2.1 "cover.a"
  · exact (C9_tracker_invariant c6mgr hminv).2.2.2.2 2000

/-- C5: the authoritative state is the rounded climate value when the
climate switch is on (with climate mode configured so the value exists) and
the rounded geometric default otherwise, with 100 minus that value emitted
under global inversion; and the double-roller slat channel applies the same
inversion rule to its sun percentage, independently of the primary
selection. -/
theorem C5_arbiter (c : Coordinator) :
    (c.switch_mode = true → c.climate_mode = true →
      c.state = Except.ok (some (if c.inverse_state
        then 100 - ((pythonRound c.climate_state_raw : ℤ) : ℚ)
        else ((pythonRound c.climate_state_raw : ℤ) : ℚ))))
    ∧ (c.switch_mode = false →
      c.state = Except.ok (some (if c.inverse_state
        then 100 - ((pythonRound c.default_state_raw : ℤ) : ℚ)
        else ((pythonRound c.default_state_raw : ℤ) : ℚ))))
    ∧ (c.cover_type = "cover_double_roller" →
      c.slat_state = Except.ok (some (if c.inverse_state
        then 100 - c.sun_percentage_raw else c.sun_percentage_raw)))
    ∧ (c.cover_type ≠ "cover_double_roller" → c.slat_state = Except.ok none) := by
  refine ⟨?_, ?_, ?_, ?_⟩
  · intro hsw hcm
    by_cases hinv : c.inverse_state = true <;>
      simp [Coordinator.state, Coordinator.climate_state, hsw, hcm, hinv]
  · intro hsw
    by_cases hinv : c.inverse_state = true <;>
      simp [Coordinator.state, Coordinator.default_state, hsw, hinv]
  · intro hdr
    by_cases hinv : c.inverse_state = true <;>
      simp [Coordinator.slat_state, hdr, hinv]
  · intro hdr
    rw [Coordinator.slat_state, if_pos hdr]

/-- Concrete double roller with the climate switch on and inversion on, for
the C5 witness: the raw climate value 72 inverts to 28, and the slat raw
value 30 inverts to 70. -/
def c5wit : Coordinator :=
  { c1wit with cover_type := "cover_double_roller", climate_mode := true,
               switch_mode := true, inverse_state := true,
               climate_state_raw := 72, sun_percentage_raw := 30 }

/-- Concrete vertical cover without climate or inversion, for the C5
witness: the raw default 40 is emitted unchanged. -/
def c5wit2 : Coordinator :=
  { c1wit with default_state_raw := 40 }

/-- Witness for C5 at concrete inputs on both selection paths and on the
slat channel. -/
theorem C5_witness :
    c5wit.state = Except.ok (some 28) ∧
    c5wit.slat_state = Except.ok (some 70) ∧
    c5wit2.state = Except.ok (some 40) ∧
    c5wit2.slat_state = Except.ok none := by
  refine ⟨?_, ?_, ?_, ?_⟩
  · have := (C5_arbiter c5wit).1 rfl rfl
    rw [this]
    norm_num [c5wit, c1wit, pythonRound]
  · have := (C5_arbiter c5wit).2.2.1 rfl
    rw [this]
    norm_num [c5wit, c1wit]
  · have := (C5_arbiter c5wit2).2.1 rfl
    rw [this]
    norm_num [c5wit2, c1wit, pythonRound]
  · exact (C5_arbiter c5wit2).2.2.2 (by simp [c5wit2, c1wit])

/-- C3 (amended): while a command is pending, for a tilt-only cover the
awaiting flag clears exactly when the reported tilt equals the commanded
tilt target; for a double roller the flag clears whenever the reported tilt
equals the recorded tilt target or the reported position equals the recorded
primary target, regardless of the secondary toggle, so a tilt match alone
suffices even with the toggle on. -/
theorem C3_pending_clear (c : Coordinator) (e : String) (ev : StateChangedData)
    (ns : CoverState) (tc : TargetEntry)
    (hev : c.state_change_data = some ev) (heid : ev.entity_id = e)
    (hns : ev.new_state = some ns)
    (hw : c.wait_for_target.get e = some true)
    (htc : c.target_call.get e = some tc) :
    (c.cover_type = "cover_tilt" →
      c.process_entity_state_change.map (fun c' => c'.wait_for_target.get e) =
        Except.ok (some (if ns.current_tilt_position = tc.tilt then false else true)))
    ∧ (c.cover_type = "cover_double_roller" →
      (ns.current_tilt_position = tc.tilt ∨ ns.current_position = tc.normal) →
      c.process_entity_state_change.map (fun c' => c'.wait_for_target.get e) =
        Except.ok (some false)) := by
  subst heid
  constructor
  · intro hct
    by_cases hm : ns.current_tilt_position = tc.tilt
    · simp [Coordinator.process_entity_state_change, hev, hns, hw, htc, hct, hm,
            Coordinator.clear_wait, Dict.get_insert_self, Except.map]
    · simp [Coordinator.process_entity_state_change, hev, hns, hw, htc, hct, hm,
            Except.map]
  · intro hct hdisj
    rcases hdisj with h1 | h2
    · by_cases h2 : ns.current_position = tc.normal <;>
        simp [Coordinator.process_entity_state_change, hev, hns, hw, htc, hct, h1, h2,
              Coordinator.clear_wait, Dict.get_insert_self, Except.map]
    · by_cases h1 : ns.current_tilt_position = tc.tilt <;>
        simp [Coordinator.process_entity_state_change, hev, hns, hw, htc, hct, h1, h2,
              Coordinator.clear_wait, Dict.get_insert_self, Except.map]

/-- Reported state of the C3 counterexample: tilt at the commanded 50, but
primary position 99 far from the commanded 30. -/
def c3newstate : CoverState :=
  { current_position := some 99, current_tilt_position := some 50, last_updated := 10 }

/-- State-change event delivering c3newstate for the tracked cover. -/
def c3event : StateChangedData :=
  { entity_id := "cover.a", old_state := none, new_state := some c3newstate }

/-- Double roller with the secondary toggle on, awaiting tilt 50 and primary
30, receiving the c3event report. -/
def c3cex : Coordinator :=
  { c1wit with cover_type := "cover_double_roller", double_toggle := true,
               wait_for_target := [("cover.a", true)],
               target_call := [("cover.a", { tilt := some 50, normal := some 30 })],
               state_change_data := some c3event }

/-- Counterexample to C3 as stated: for a double roller with the secondary
toggle on, a report matching the commanded tilt but not the commanded
primary position (99 instead of 30) still clears the awaiting flag, although
the claim requires both channels to match before it clears. -/
theorem C3_counterexample :
    c3cex.cover_type = "cover_double_roller" ∧
    c3cex.double_toggle = true ∧
    c3cex.wait_for_target.get "cover.a" = some true ∧
    c3cex.target_call.get "cover.a" = some { tilt := some 50, normal := some 30 } ∧
    c3cex.state_change_data = some c3event ∧
    c3event.new_state = some c3newstate ∧
    c3newstate.current_tilt_position = some 50 ∧
    c3newstate.current_position = some 99 ∧
    c3cex.process_entity_state_change.map
      (fun c' => c'.wait_for_target.get "cover.a") = Except.ok (some false) :=
  ⟨rfl, rfl, rfl, rfl, rfl, rfl, rfl, rfl, rfl⟩

/-- Reported state of the C3 witness: a tilt-only cover reaching its
commanded tilt 40. -/
def c3witNS : CoverState :=
  { current_position := none, current_tilt_position := some 40, last_updated := 10 }

/-- State-change event delivering c3witNS. -/
def c3witEvent : StateChangedData :=
  { entity_id := "cover.a", old_state := none, new_state := some c3witNS }

/-- Tilt-only cover awaiting tilt 40, receiving the c3witEvent report. -/
def c3wit : Coordinator :=
  { c1wit with cover_type := "cover_tilt",
               wait_for_target := [("cover.a", true)],
               target_call := [("cover.a", { tilt := some 40 })],
               state_change_data := some c3witEvent }

/-- Witness for C3: the tilt-only cover clears its awaiting flag on the
matching tilt report, and the double roller clears on a tilt-channel match. -/
theorem C3_witness :
    c3wit.process_entity_state_change.map
      (fun c' => c'.wait_for_target.get "cover.a") = Except.ok (some false) ∧
    c3cex.process_entity_state_change.map
      (fun c' => c'.wait_for_target.get "cover.a") = Except.ok (some false) := by
  constructor
  · have := (C3_pending_clear c3wit "cover.a" c3witEvent c3witNS
      { tilt := some 40, normal := none } rfl rfl rfl rfl rfl).1 rfl
    simpa using this
  · exact (C3_pending_clear c3cex "cover.a" c3event c3newstate
      { tilt := some 50, normal := some 30 } rfl rfl rfl rfl rfl).2 rfl (Or.inl rfl)

/-- C7 (amended): in every successful dispatch the awaiting flag is set
before the first awaited service call and is true in the resulting state;
for every cover except a double roller with the secondary toggle on, all
channel targets are also recorded before the first service call, while the
double roller with the toggle on records its primary target only after the
tilt service call is awaited. -/
theorem C7_awaiting_set_before_await (c : Coordinator) (e : String)
    (c' : Coordinator) (tr : List DispatchAction)
    (h : c.async_set_position e = Except.ok (c', tr)) :
    waitBeforeFirstCall tr = true ∧
    c'.wait_for_target.get e = some true ∧
    (¬ (c.cover_type = "cover_double_roller" ∧ c.double_toggle = true) →
      preparedBeforeFirstCall tr = true) := by
  by_cases hdt : c.cover_type = "cover_double_roller"
  · cases hsl : c.slat_state with
    | error err => simp [Coordinator.async_set_position, hdt, hsl] at h
    | ok sl =>
      by_cases htg : c.double_toggle = true
      · cases hst : c.state with
        | error err => simp [Coordinator.async_set_position, hdt, hsl, htg, hst] at h
        | ok st =>
          simp [Coordinator.async_set_position, hdt, hsl, htg, hst] at h
          obtain ⟨hc', htr⟩ := h
          subst hc'; subst htr
          refine ⟨?_, ?_, fun hn => absurd ⟨hdt, htg⟩ hn⟩
          · simp [waitBeforeFirstCall, DispatchAction.is_set_wait, DispatchAction.is_call]
          · simp [Dict.get_insert_self]
      · simp [Coordinator.async_set_position, hdt, hsl, htg] at h
        obtain ⟨hc', htr⟩ := h
        subst hc'; subst htr
        refine ⟨?_, ?_, fun _ => ?_⟩
        · simp [waitBeforeFirstCall, DispatchAction.is_set_wait, DispatchAction.is_call]
        · simp [Dict.get_insert_self]
        · simp [preparedBeforeFirstCall, DispatchAction.is_call,
                DispatchAction.is_set_wait, DispatchAction.is_set_target]
  · by_cases htl : c.cover_type = "cover_tilt"
    · cases hst : c.state with
      | error err => simp [Coordinator.async_set_position, hdt, htl, hst] at h
      | ok st =>
        simp [Coordinator.async_set_position, hdt, htl, hst] at h
        obtain ⟨hc', htr⟩ := h
        subst hc'; subst htr
        refine ⟨?_, ?_, fun _ => ?_⟩
        · simp [waitBeforeFirstCall, DispatchAction.is_set_wait, DispatchAction.is_call]
        · simp [Dict.get_insert_self]
        · simp [preparedBeforeFirstCall, DispatchAction.is_call,
                DispatchAction.is_set_wait, DispatchAction.is_set_target]
    · cases hst : c.state with
      | error err => simp [Coordinator.async_set_position, hdt, htl, hst] at h
      | ok st =>
        simp [Coordinator.async_set_position, hdt, htl, hst] at h
        obtain ⟨hc', htr⟩ := h
        subst hc'; subst htr
        refine ⟨?_, ?_, fun _ => ?_⟩
        · simp [waitBeforeFirstCall, DispatchAction.is_set_wait, DispatchAction.is_call]
        · simp [Dict.get_insert_self]
        · simp [preparedBeforeFirstCall, DispatchAction.is_call,
                DispatchAction.is_set_wait, DispatchAction.is_set_target]

/-- Double roller with the secondary toggle on, for the C7 counterexample. -/
def c7cex : Coordinator :=
  { c1wit with cover_type := "cover_double_roller", double_toggle := true,
               sun_percentage_raw := 30 }

/-- Counterexample to C7 as stated: for a double roller with the toggle on,
the dispatch trace records the primary channel target only after the tilt
service call has been awaited, so not all target values are recorded before
the first asynchronous service call. -/
theorem C7_counterexample :
    c7cex.cover_type = "cover_double_roller" ∧
    c7cex.double_toggle = true ∧
    (c7cex.async_set_position "cover.a").map (fun r => preparedBeforeFirstCall r.2) =
      Except.ok false :=
  ⟨rfl, rfl, rfl⟩

/-- Tilt-only cover for the C7 witness. -/
def c7wit : Coordinator :=
  { c1wit with cover_type := "cover_tilt" }

/-- Commanded tilt value of the c7wit dispatch. -/
def c7st : ℚ := ((pythonRound c7wit.default_state_raw : ℤ) : ℚ)

/-- Trace of the c7wit dispatch. -/
def c7tr : List DispatchAction :=
  [DispatchAction.reset_target "cover.a", DispatchAction.set_wait "cover.a",
   DispatchAction.set_target_tilt "cover.a" (some c7st),
   DispatchAction.service_call_tilt "cover.a" (some c7st)]

/-- Coordinator state after the c7wit dispatch. -/
def c7post : Coordinator :=
  { c7wit with wait_for_target := [("cover.a", true)],
               target_call := [("cover.a", { tilt := some c7st })] }

/-- Witness for C7: on the concrete tilt cover the dispatch succeeds, the
awaiting flag precedes the first service call and is set afterwards, and all
targets precede the first call. -/
theorem C7_witness :
    c7wit.async_set_position "cover.a" = Except.ok (c7post, c7tr) ∧
    waitBeforeFirstCall c7tr = true ∧
    preparedBeforeFirstCall c7tr = true ∧
    c7post.wait_for_target.get "cover.a" = some true := by
  have happ := C7_awaiting_set_before_await c7wit "cover.a" c7post c7tr rfl
  exact ⟨rfl, happ.1, happ.2.2 (by decide), happ.2.1⟩

/-- C4: for a tracked, configured cover not flagged manual at dispatch time,
a cycle issues an automatic command exactly when the position delta against
the target reaches min_change (for a double roller with the toggle on, a
qualifying secondary delta also suffices), at least time_threshold minutes
have elapsed since the cover was last updated, and the start condition has
been reached. -/
theorem C4_dispatch_gate (c : Coordinator) (e : String) (m' : AdaptiveCoverManager)
    (cmds : List String) (cp target : ℚ) (lu : ℤ)
    (hrun : c.run_cycle = Except.ok (m', cmds))
    (hct : c.control_toggle = true)
    (hmem : e ∈ c.entities)
    (hman : m'.is_cover_manual e = false)
    (hattr : (if c.cover_type = "cover_tilt" ∨ c.cover_type = "cover_double_roller"
              then c.hass.attr_current_tilt_position e
              else c.hass.attr_current_position e) = some cp)
    (hst : c.state = Except.ok (some target))
    (hlu : c.hass.last_updated e = some lu) :
    (¬ (c.cover_type = "cover_double_roller" ∧ c.double_toggle = true) →
      (e ∈ cmds ↔ (c.min_change ≤ |cp - target| ∧
        60 * c.time_threshold ≤ c.hass.now - lu ∧ c.after_start_time = true)))
    ∧ (∀ sp slat, c.cover_type = "cover_double_roller" → c.double_toggle = true →
        c.hass.attr_current_position e = some sp →
        c.slat_state = Except.ok (some slat) →
        (e ∈ cmds ↔ ((c.min_change ≤ |cp - target| ∨ c.min_change ≤ |sp - slat|) ∧
          60 * c.time_threshold ≤ c.hass.now - lu ∧ c.after_start_time = true))) := by
  have hd := Coordinator.run_cycle_dispatch hrun hct
  have hiff := Coordinator.mem_dispatch_iff c m' c.entities cmds hd e
  constructor
  · intro hnd
    have hcp : c.check_position e =
        Except.ok (some (decide (c.min_change ≤ |cp - target|))) := by
      simp [Coordinator.check_position, hattr, hst, hnd]
    rw [hiff]
    simp [hmem, hman, Coordinator.async_handle_call_service_gate, hcp,
          Coordinator.check_time_delta, hlu, and_assoc]
  · intro sp slat hdr htg hsp hsl
    have hattr' : c.hass.attr_current_tilt_position e = some cp := by
      rw [if_pos (Or.inr hdr)] at hattr; exact hattr
    have hcp : c.check_position e =
        Except.ok (some (decide (c.min_change ≤ |cp - target|) ||
          decide (c.min_change ≤ |sp - slat|))) := by
      simp [Coordinator.check_position, hattr', hst, hdr, htg, hsp, hsl]
    rw [hiff]
    simp [hmem, hman, Coordinator.async_handle_call_service_gate, hcp,
          Coordinator.check_time_delta, hlu, and_assoc]

/-- Environment of the C4 scenario: the cover reports position 41 (one unit
from the target 40) and was last commanded at instant 0. -/
def c4hass (now : ℤ) : Hass :=
  { attr_current_position := fun s => if s = "cover.a" then some 41 else none,
    attr_current_tilt_position := fun _ => none,
    last_updated := fun s => if s = "cover.a" then some 0 else none,
    now := now, tz_offset := 0 }

/-- Coordinator of the C4 scenario at a given wall-clock instant, with
min_change 1 and time_threshold 2 minutes. -/
def c4coord (now : ℤ) : Coordinator :=
  { c1wit with manager := { covers := [], manual_control := [],
                            manual_control_time := [], reset_duration := 900 },
               hass := c4hass now }

/-- Manager state of a c4coord cycle at dispatch time. -/
def c4mgr : AdaptiveCoverManager :=
  { covers := ["cover.a"], manual_control := [], manual_control_time := [],
    reset_duration := 900 }

theorem c4coord_state (now : ℤ) : (c4coord now).state = Except.ok (some 40) := by
  norm_num [Coordinator.state, Coordinator.default_state, pythonRound,
    c4coord, c1wit]

theorem c4coord_check_position (now : ℤ) :
    (c4coord now).check_position "cover.a" = Except.ok (some true) := by
  rw [Coordinator.check_position.eq_def]
  rw [c4coord_state now]
  simp [c4coord, c1wit, c4hass]
  norm_num

theorem c4coord_gate (now : ℤ) :
    (c4coord now).async_handle_call_service_gate "cover.a" =
      Except.ok (decide (120 ≤ now)) := by
  rw [Coordinator.async_handle_call_service_gate, c4coord_check_position now]
  have htd : (c4coord now).check_time_delta "cover.a" = decide (120 ≤ now) := by
    simp [Coordinator.check_time_delta, c4coord, c1wit, c4hass]
  rw [htd]
  have hstart : (c4coord now).after_start_time = true := rfl
  rw [hstart]
  simp

theorem c4coord_run_cycle (now : ℤ) :
    (c4coord now).run_cycle =
      Except.ok (c4mgr, if 120 ≤ now then ["cover.a"] else []) := by
  have hdl : (c4coord now).dispatch_list c4mgr ["cover.a"] =
      Except.ok (if 120 ≤ now then ["cover.a"] else []) := by
    rw [Coordinator.dispatch_list, Coordinator.dispatch_list]
    rw [c4coord_gate now]
    by_cases hnow : (120:ℤ) ≤ now
    · simp [AdaptiveCoverManager.is_cover_manual, c4mgr, Dict.get, hnow]
    · simp [AdaptiveCoverManager.is_cover_manual, c4mgr, Dict.get, hnow]
  simp only [Coordinator.run_cycle]
  have h0 : (c4coord now).cover_state_change = false := rfl
  rw [h0]
  have h1 : ((c4coord now).manager.add_covers (c4coord now).entities) = c4mgr := by
    simp [AdaptiveCoverManager.add_covers, c4coord, c1wit, c4mgr, Dict.get]
  simp only [Bool.false_eq_true, if_false]
  rw [h1]
  have h2 : c4mgr.reset_if_needed (c4coord now).hass.now = c4mgr := rfl
  rw [h2]
  have h3 : (c4coord now).control_toggle = true := rfl
  rw [h3]
  simp only [if_true]
  have h4 : (c4coord now).entities = ["cover.a"] := rfl
  rw [h4, hdl]

/-- Witness for C4: the same one-unit delta issues no command one minute
after the last command but does issue one at two minutes exactly. -/
theorem C4_witness :
    (c4coord 60).run_cycle = Except.ok (c4mgr, []) ∧
    (c4coord 120).run_cycle = Except.ok (c4mgr, ["cover.a"]) ∧
    "cover.a" ∉ ([] : List String) ∧
    "cover.a" ∈ ["cover.a"] := by
  have h60 : (c4coord 60).run_cycle = Except.ok (c4mgr, []) := by
    rw [c4coord_run_cycle 60]; decide
  have h120 : (c4coord 120).run_cycle = Except.ok (c4mgr, ["cover.a"]) := by
    rw [c4coord_run_cycle 120]; decide
  refine ⟨h60, h120, ?_, ?_⟩
  · have hiff := (C4_dispatch_gate (c4coord 60) "cover.a" c4mgr [] 41 40 0 h60 rfl
      (by decide) rfl rfl (c4coord_state 60) rfl).1 (by decide)
    intro hmem
    have := hiff.mp hmem
    norm_num [c4coord, c4hass, c1wit] at this
  · have hiff := (C4_dispatch_gate (c4coord 120) "cover.a" c4mgr ["cover.a"] 41 40 0
      h120 rfl (by decide) rfl rfl (c4coord_state 120) rfl).1 (by decide)
    refine hiff.mpr ?_
    refine ⟨by norm_num [c4coord, c1wit], by norm_num [c4coord, c4hass, c1wit], rfl⟩

/-- C10: for a cover whose consulted position attribute (the tilt position
for tilt and double-roller covers, the position otherwise) is unavailable,
check_position returns None, the dispatch gate evaluates falsy, and no
automatic command is issued to that cover in the cycle. -/
theorem C10_unavailable_position (c : Coordinator) (e : String)
    (hattr : (if c.cover_type = "cover_tilt" ∨ c.cover_type = "cover_double_roller"
              then c.hass.attr_current_tilt_position e
              else c.hass.attr_current_position e) = none) :
    c.check_position e = Except.ok none ∧
    c.async_handle_call_service_gate e = Except.ok false ∧
    (∀ m' cmds, c.run_cycle = Except.ok (m', cmds) → e ∉ cmds) := by
  have hcp : c.check_position e = Except.ok none := by
    rw [Coordinator.check_position.eq_def, hattr]
  have hg : c.async_handle_call_service_gate e = Except.ok false := by
    rw [Coordinator.async_handle_call_service_gate, hcp]
    rfl
  refine ⟨hcp, hg, ?_⟩
  intro m' cmds h hmem
  by_cases hct : c.control_toggle = true
  · have hd := Coordinator.run_cycle_dispatch h hct
    have hiff := Coordinator.mem_dispatch_iff c m' c.entities cmds hd e
    have hgate := (hiff.mp hmem).2.2
    rw [hg] at hgate
    injection hgate with hgate
    exact absurd hgate (by simp)
  · have : cmds = [] :=
      Coordinator.run_cycle_no_control h (by simpa using hct)
    subst this
    simp at hmem

/-- Tilt cover whose tilt attribute is unavailable, for the C10 witness. -/
def c10wit : Coordinator :=
  { c1wit2 with cover_type := "cover_tilt" }

/-- Witness for C10: on the concrete tilt cover with no readable tilt
attribute the check yields None, the gate fails and the cycle commands
nothing. -/
theorem C10_witness :
    c10wit.check_position "cover.a" = Except.ok none ∧
    c10wit.async_handle_call_service_gate "cover.a" = Except.ok false ∧
    c10wit.run_cycle = Except.ok (c1mgr2, []) ∧
    "cover.a" ∉ ([] : List String) := by
  have happ := C10_unavailable_position c10wit "cover.a" rfl
  exact ⟨happ.1, happ.2.1, rfl, happ.2.2 c1mgr2 [] rfl⟩

/-- C8: a forecast query within five minutes of a successful non-empty
generation returns the identical cached sequence with the cache untouched;
otherwise, with a cover calculator available, it recomputes and caches a
49-entry sequence sampling 24 hours at 30-minute resolution from the current
local time, ordered by strictly increasing timestamps, each entry holding
the solar elevation and azimuth of its instant and the night-aware
position. -/
theorem C8_forecast (s : AdaptiveCoverForecastSensor) (now : ℤ) (env : ForecastEnv) :
    (∀ lf fd, s.last_forecast = some lf → s.forecast_data = some fd → fd ≠ [] →
      now - lf < 300 → s.generate_forecast now env = (fd, s))
    ∧ (env.calculator_ok = true →
      (s.last_forecast = none ∨ s.forecast_data = none ∨ s.forecast_data = some [] ∨
        (∀ lf, s.last_forecast = some lf → 300 ≤ now - lf)) →
      (s.generate_forecast now env).1.length = 49 ∧
      (∀ i : ℕ, i < 49 → (s.generate_forecast now env).1.get? i =
        some (forecastEntryAt env (env.now_local + 1800 * i))) ∧
      (∀ i j : ℕ, ∀ a b : ForecastEntry, i < j →
        (s.generate_forecast now env).1.get? i = some a →
        (s.generate_forecast now env).1.get? j = some b → a.time < b.time) ∧
      (s.generate_forecast now env).2 =
        { forecast_data := some ((s.generate_forecast now env).1),
          last_forecast := some now }) := by
  constructor
  · intro lf fd hlf hfd hne hfresh
    simp [AdaptiveCoverForecastSensor.generate_forecast, hlf, hfd, hne, hfresh]
  · intro hok hmiss
    have hval : s.generate_forecast now env =
        ((forecastTimes env.now_local).map (forecastEntryAt env),
         { forecast_data := some ((forecastTimes env.now_local).map (forecastEntryAt env)),
           last_forecast := some now }) := by
      rcases hmiss with h | h | h | h
      · simp [AdaptiveCoverForecastSensor.generate_forecast, h, hok]
      · cases hlf : s.last_forecast with
        | none => simp [AdaptiveCoverForecastSensor.generate_forecast, hlf, h, hok]
        | some lf => simp [AdaptiveCoverForecastSensor.generate_forecast, hlf, h, hok]
      · cases hlf : s.last_forecast with
        | none => simp [AdaptiveCoverForecastSensor.generate_forecast, hlf, h, hok]
        | some lf => simp [AdaptiveCoverForecastSensor.generate_forecast, hlf, h, hok]
      · cases hlf : s.last_forecast with
        | none => simp [AdaptiveCoverForecastSensor.generate_forecast, hlf, hok]
        | some lf =>
          cases hfd : s.forecast_data with
          | none => simp [AdaptiveCoverForecastSensor.generate_forecast, hlf, hfd, hok]
          | some fd =>
            have hstale : ¬ (now - lf < 300) := not_lt.mpr (h lf hlf)
            simp [AdaptiveCoverForecastSensor.generate_forecast, hlf, hfd, hok, hstale]
    rw [hval]
    have hlen : ((forecastTimes env.now_local).map (forecastEntryAt env)).length = 49 := by
      rw [List.length_map, forecastTimes, List.length_map, List.length_range]
    refine ⟨hlen, ?_, ?_, rfl⟩
    · intro i hi
      rw [forecastTimes, List.map_map, List.get?_map, List.get?_range hi,
        Option.map_some']
      rfl
    · intro i j a b hij ha hb
      have hj : j < 49 := by
        by_contra hj
        rw [List.get?_eq_none.mpr (by rw [hlen]; omega)] at hb
        exact Option.noConfusion hb
      have hi : i < 49 := lt_trans hij hj
      rw [forecastTimes, List.map_map, List.get?_map, List.get?_range hi,
        Option.map_some'] at ha
      rw [forecastTimes, List.map_map, List.get?_map, List.get?_range hj,
        Option.map_some'] at hb
      injection ha with ha
      injection hb with hb
      rw [← ha, ← hb]
      show env.now_local + 1800 * (i:ℤ) < env.now_local + 1800 * (j:ℤ)
      omega

/-- A cached forecast entry for the C8 witness. -/
def c8entry : ForecastEntry := { time := 5, position := 12, elevation := 3, azimuth := 4 }

/-- Sensor with a one-entry forecast generated at instant 0. -/
def c8sensor : AdaptiveCoverForecastSensor :=
  { forecast_data := some [c8entry], last_forecast := some 0 }

/-- Concrete forecast environment for the C8 witness. -/
def c8env : ForecastEnv :=
  { calculator_ok := true, solar_azimuth := fun _ => 4, solar_elevation := fun _ => 3,
    state_at := fun _ => 12, sunset := 100000, sunrise := -10, sunset_off := 0,
    sunrise_off := 0, sunset_position := 0, now_local := 0 }

/-- Witness for C8: a query 100 seconds after generation returns the cached
list unchanged, and a query with an empty cache computes the 49-entry
sequence starting at the current local time. -/
theorem C8_witness :
    c8sensor.generate_forecast 100 c8env = ([c8entry], c8sensor) ∧
    ((AdaptiveCoverForecastSensor.mk none none).generate_forecast 100 c8env).1.length = 49 ∧
    ((AdaptiveCoverForecastSensor.mk none none).generate_forecast 100 c8env).1.get? 0 =
      some (forecastEntryAt c8env 0) := by
  have h1 := (C8_forecast c8sensor 100 c8env).1 0 [c8entry] rfl rfl (by simp) (by norm_num)
  have h2 := (C8_forecast (AdaptiveCoverForecastSensor.mk none none) 100 c8env).2 rfl
    (Or.inl rfl)
  refine ⟨h1, h2.1, ?_⟩
  have h3 := h2.2.1 0 (by norm_num)
  simpa using h3
